import Mathlib

/-!
Shallow embedding of `src/legal_assistant.py` (techleadershub/legalassistant).

The program is glue code: PDF text extraction (`extract_text_from_pdf`),
two prompt-building LLM flows (`get_legal_summary`, `get_legal_answer`),
client initialization (`init_openai_client`) and the UI boundary logic in
`main`.  Effects are made explicit:

* a page of the PDF is modelled by the result of `page.extract_text()`,
  an `Option String` (`none` for a page with no text layer);
* opening the PDF is modelled by an `Option (List (Option String))`
  (`none` when `pdfplumber.open` raises, i.e. empty / corrupt / non-PDF
  payloads);
* the LLM client is a function `ChatRequest → Except String String`
  (`Except.error e` when the provider call raises with message `e`,
  `Except.ok c` for a completion `c = response.choices[0].message.content`);
* Streamlit calls (`st.error`, `st.warning`, `st.stop`) become explicit
  flags / outcome values;
* the temporary file written by `extract_text_from_pdf` is tracked by a
  `tempDeleted` flag recording whether `os.unlink` ran before returning.

Python `str.strip()` is modelled by `pyStrip`, dropping the characters of
Python's whitespace set (`Py_UNICODE_ISSPACE`) from both ends.
-/

namespace LegalAssistant

/-- The characters stripped by Python `str.strip()`: exactly those with
`Py_UNICODE_ISSPACE` — ASCII `\t \n \x0b \x0c \x0d` and space, the
separator controls `\x1c`-`\x1f`, NEL `\x85`, NBSP `\xa0`, and the
Unicode space-category and line/paragraph separator characters. -/
def pyWhitespaceChars : List Char :=
  [' ', '\t', '\n', '\x0b', '\x0c', '\x0d',
   '\x1c', '\x1d', '\x1e', '\x1f', '\x85', '\xa0',
   '\u1680', '\u2000', '\u2001', '\u2002', '\u2003', '\u2004', '\u2005',
   '\u2006', '\u2007', '\u2008', '\u2009', '\u200a',
   '\u2028', '\u2029', '\u202f', '\u205f', '\u3000']

/-- Whitespace as recognised by Python `str.strip()`. -/
def isPySpace (c : Char) : Bool :=
  pyWhitespaceChars.contains c

/-- Drop trailing whitespace from a list of characters (Python `rstrip`). -/
def rstripL (xs : List Char) : List Char :=
  (xs.reverse.dropWhile isPySpace).reverse

/-- Drop leading and trailing whitespace (Python `strip`). -/
def stripL (xs : List Char) : List Char :=
  (rstripL xs).dropWhile isPySpace

/-- Python `s.strip()` on strings. -/
def pyStrip (s : String) : String :=
  String.mk (stripL s.data)

/-- A role-tagged chat message, as in the `messages` list of
`client.chat.completions.create`. -/
structure Message where
  role : String
  content : String
deriving DecidableEq, Repr

/-- The request issued to `client.chat.completions.create`. -/
structure ChatRequest where
  model : String
  messages : List Message
  max_tokens : Nat
  temperature : ℚ
deriving DecidableEq, Repr

/-- The provider client: maps a request to either a completion text
(`response.choices[0].message.content`) or the message of a raised
exception (`str(e)`). -/
def Client : Type := ChatRequest → Except String String

/-- System prompt of `get_legal_summary` (source lines 62-72), verbatim
including the indentation embedded in the Python triple-quoted string. -/
def summary_system_prompt : String :=
  "You are a legal assistant specializing in Indian law. Your task is to summarize legal documents in plain English for non-lawyers. Focus on:\n                    \n                    1. Key terms and conditions\n                    2. Rights and obligations of parties\n                    3. Important clauses (termination, payment, liability, etc.)\n                    4. Potential risks or concerns\n                    5. Next steps or deadlines\n                    \n                    Always reference Indian legal context where applicable. Keep the summary clear, concise, and accessible. Highlight any critical legal clauses like indemnity, arbitration, termination, confidentiality, etc.\n                    \n                    IMPORTANT: Always include a disclaimer that this is for informational purposes only and not legal advice."

/-- System prompt of `get_legal_answer` (source lines 94-110), verbatim. -/
def answer_system_prompt : String :=
  "You are a legal assistant specializing in Indian law. Provide accurate, helpful information about Indian legal matters including:\n                    \n                    - Contract law under the Indian Contract Act, 1872\n                    - Employment law and labor rights in India\n                    - Property and tenancy laws\n                    - Consumer protection laws\n                    - Company law and business regulations\n                    - Constitutional rights and civil liberties\n                    \n                    Always:\n                    1. Focus specifically on Indian laws and regulations\n                    2. Cite relevant Indian acts or legal provisions when applicable\n                    3. Provide practical, actionable guidance\n                    4. Include appropriate disclaimers\n                    5. Avoid references to US, UK, or other foreign legal systems unless for comparison\n                    \n                    IMPORTANT: Always end responses with a clear disclaimer that this is general information only and not substitute for professional legal advice."

/-- The request built by `get_legal_summary` (source lines 57-81). -/
def summary_request (document_text : String) (model : String) : ChatRequest :=
  { model := model
    messages :=
      [ { role := "system", content := summary_system_prompt },
        { role := "user",
          content := "Please provide a plain-English summary of this legal document:\n\n" ++ document_text } ]
    max_tokens := 1500
    temperature := 3/10 }

/-- The request built by `get_legal_answer` (source lines 89-119). -/
def answer_request (question : String) (model : String) : ChatRequest :=
  { model := model
    messages :=
      [ { role := "system", content := answer_system_prompt },
        { role := "user", content := question } ]
    max_tokens := 1000
    temperature := 3/10 }

/-- `get_legal_summary` (source lines 54-84): issue the request; on success
return the completion unmodified, on a raised exception return the in-band
error string. -/
def get_legal_summary (client : Client) (document_text : String)
    (model : String) : String :=
  match client (summary_request document_text model) with
  | Except.ok content => content
  | Except.error e => "Error generating summary: " ++ e

/-- `get_legal_answer` (source lines 86-122). -/
def get_legal_answer (client : Client) (question : String)
    (model : String) : String :=
  match client (answer_request question model) with
  | Except.ok content => content
  | Except.error e => "Error generating answer: " ++ e

/-- Outcome of one call to `extract_text_from_pdf`: the returned string,
whether `os.unlink` ran on the temporary copy before returning, and
whether `st.error` was shown. -/
structure ExtractOutcome where
  result : String
  tempDeleted : Bool
  errorShown : Bool
deriving DecidableEq, Repr

/-- The page loop of `extract_text_from_pdf` (source lines 39-44):
`text = ""` then `for page in pdf.pages: page_text = page.extract_text();
if page_text: text += page_text + "\n"`.  A page is the `Option String`
returned by `page.extract_text()`; the Python truthiness test rejects
`None` and `""`. -/
def extractLoop : List (Option String) → String → String
  | [], text => text
  | page :: rest, text =>
    match page with
    | some t => if t = "" then extractLoop rest text else extractLoop rest (text ++ t ++ "\n")
    | none => extractLoop rest text

/-- `extract_text_from_pdf` (source lines 32-52).  The payload is modelled
by the result of `pdfplumber.open` on the temporary copy: `none` when
opening raises (empty bytes, non-PDF, corrupt or password-protected
payloads), `some pages` otherwise.  On the success path the loop runs,
`os.unlink` deletes the temporary file and `text.strip()` is returned; on
a raised exception the handler shows `st.error` and returns `""` without
reaching the `os.unlink` call, so the temporary file survives. -/
def extract_text_from_pdf (openResult : Option (List (Option String))) : ExtractOutcome :=
  match openResult with
  | none => { result := "", tempDeleted := false, errorShown := true }
  | some pages =>
    { result := pyStrip (extractLoop pages ""), tempDeleted := true, errorShown := false }

/-- Result of `init_openai_client` (source lines 17-30): either a client
bound to the resolved key, or the `st.stop()` halt. -/
inductive InitResult where
  | client : String → InitResult
  | halted : InitResult
deriving DecidableEq, Repr

/-- `init_openai_client` (source lines 17-30).  `env_api_key` models
`os.getenv("OPENAI_API_KEY")`; `secrets_general` models the
`st.secrets.get("general", {})` mapping as an association list.  The
Python truthiness test `if not api_key` treats both `None` and `""` as
missing; when the secrets mapping lacks the key, `st.error` then
`st.stop()` halt the script. -/
def init_openai_client (env_api_key : Option String)
    (secrets_general : List (String × String)) : InitResult :=
  let api_key := env_api_key.getD ""
  if api_key = "" then
    match secrets_general.lookup "openai_api_key" with
    | none => InitResult.halted
    | some k => InitResult.client k
  else
    InitResult.client api_key

/-- Whether `main` reaches its flow-rendering body: `main` calls
`init_openai_client` (source line 137) before any flow; `st.stop()` inside
it aborts the script, so nothing after renders. -/
def main_renders_flows (env_api_key : Option String)
    (secrets_general : List (String × String)) : Bool :=
  match init_openai_client env_api_key secrets_general with
  | InitResult.halted => false
  | InitResult.client _ => true

/-- Outcome of the document branch of `main` (source lines 179-194) for an
already-extracted `document_text`: which notification was shown and
whether / with what result `get_legal_summary` was invoked. -/
structure DocFlowOutcome where
  shownEmptyError : Bool
  shownShortWarning : Bool
  summaryCalled : Bool
  summaryResult : Option String
deriving DecidableEq, Repr

/-- The `if not document_text / elif len(document_text) < 50 / else`
branch of `main` (source lines 179-194). -/
def analyze_document (client : Client) (document_text : String)
    (model_choice : String) : DocFlowOutcome :=
  if document_text = "" then
    { shownEmptyError := true, shownShortWarning := false,
      summaryCalled := false, summaryResult := none }
  else if document_text.length < 50 then
    { shownEmptyError := false, shownShortWarning := true,
      summaryCalled := false, summaryResult := none }
  else
    { shownEmptyError := false, shownShortWarning := false,
      summaryCalled := true,
      summaryResult := some (get_legal_summary client document_text model_choice) }

/-- The Q&A boundary of `main` (source line 227):
`if st.button("🔍 Get Answer", type="primary") and question:` — the flow
runs only when the button fires and the question string is truthy
(non-empty). -/
def qa_flow_invoked (button_clicked : Bool) (question : String) : Bool :=
  button_clicked && !(question == "")

/-! ### Claim-side vocabulary for the extraction result

The spec describes the extraction result as the per-page text segments,
in page order, joined by single newlines and stripped of surrounding
whitespace.  `pageSegments` names the segments that survive the loop's
truthiness test, and `joinNL` is the spec's "joined by a single newline". -/

/-- The page texts that pass `if page_text:` — pages whose
`page.extract_text()` returned a non-`None`, non-empty string, in page
order. -/
def pageSegments (pages : List (Option String)) : List String :=
  (pages.filterMap id).filter (fun t => !(t == ""))

/-- Spec-side join: the segments separated by exactly one newline. -/
def joinNL : List String → String
  | [] => ""
  | [s] => s
  | s :: r :: rest => s ++ "\n" ++ joinNL (r :: rest)

/-- Helper: each segment followed by a newline, concatenated — the raw
shape produced by the extraction loop before `strip()`. -/
def tailJoin : List String → String
  | [] => ""
  | s :: rest => s ++ "\n" ++ tailJoin rest

/-! ### Helper lemmas -/

lemma extractLoop_acc (pages : List (Option String)) (acc : String) :
    extractLoop pages acc = acc ++ extractLoop pages "" := by
  induction pages generalizing acc with
  | nil => simp [extractLoop]
  | cons p rest ih =>
    cases p with
    | none => simpa [extractLoop] using ih acc
    | some t =>
      by_cases ht : t = ""
      · simpa [extractLoop, ht] using ih acc
      · simp only [extractLoop, if_neg ht]
        rw [ih (acc ++ t ++ "\n"), ih ("" ++ t ++ "\n")]
        simp [String.append_assoc]

lemma pageSegments_cons_some (t : String) (rest : List (Option String)) (ht : t ≠ "") :
    pageSegments (some t :: rest) = t :: pageSegments rest := by
  simp [pageSegments, List.filterMap_cons, List.filter_cons, ht]

lemma extractLoop_eq_tailJoin (pages : List (Option String)) :
    extractLoop pages "" = tailJoin (pageSegments pages) := by
  induction pages with
  | nil => rfl
  | cons p rest ih =>
    cases p with
    | none => simpa [extractLoop, pageSegments] using ih
    | some t =>
      by_cases ht : t = ""
      · subst ht
        simpa [extractLoop, pageSegments] using ih
      · rw [show extractLoop (some t :: rest) "" = extractLoop rest ("" ++ t ++ "\n") by
          simp [extractLoop, ht]]
        rw [extractLoop_acc, ih, pageSegments_cons_some t rest ht]
        simp [tailJoin, String.append_assoc]

lemma tailJoin_eq_joinNL_newline (s : String) (rest : List String) :
    tailJoin (s :: rest) = joinNL (s :: rest) ++ "\n" := by
  induction rest generalizing s with
  | nil => simp [tailJoin, joinNL]
  | cons r rs ih =>
    rw [show tailJoin (s :: r :: rs) = (s ++ "\n") ++ tailJoin (r :: rs) from rfl, ih r]
    rw [show joinNL (s :: r :: rs) = (s ++ "\n") ++ joinNL (r :: rs) from rfl]
    simp [String.append_assoc]

lemma rstripL_append_space (xs : List Char) (c : Char) (h : isPySpace c = true) :
    rstripL (xs ++ [c]) = rstripL xs := by
  simp [rstripL, List.reverse_append, List.dropWhile_cons, h]

lemma pyStrip_append_newline (s : String) : pyStrip (s ++ "\n") = pyStrip s := by
  unfold pyStrip stripL
  rw [String.data_append]
  rw [show ("\n" : String).data = ['\n'] from rfl]
  rw [rstripL_append_space s.data '\n' rfl]

lemma pyStrip_tailJoin (segs : List String) :
    pyStrip (tailJoin segs) = pyStrip (joinNL segs) := by
  cases segs with
  | nil => rfl
  | cons s rest => rw [tailJoin_eq_joinNL_newline, pyStrip_append_newline]

/-- The extraction result, on any successfully opened document, is the
truthy page segments joined by single newlines and stripped. -/
lemma extract_result_eq (pages : List (Option String)) :
    (extract_text_from_pdf (some pages)).result = pyStrip (joinNL (pageSegments pages)) := by
  show pyStrip (extractLoop pages "") = _
  rw [extractLoop_eq_tailJoin, pyStrip_tailJoin]

lemma mem_dropWhile_of_mem (p : Char → Bool) (a : Char) (l : List Char)
    (h1 : a ∈ l) (h2 : p a = false) : a ∈ List.dropWhile p l := by
  induction l with
  | nil => simp at h1
  | cons x xs ih =>
    by_cases hx : p x = true
    · rcases List.mem_cons.1 h1 with rfl | h
      · rw [hx] at h2; simp at h2
      · simpa [List.dropWhile_cons, hx] using ih h
    · simp at hx
      simpa [List.dropWhile_cons, hx] using h1

lemma mem_stripL (a : Char) (l : List Char) (h1 : a ∈ l) (h2 : isPySpace a = false) :
    a ∈ stripL l := by
  unfold stripL rstripL
  refine mem_dropWhile_of_mem _ _ _ ?_ h2
  rw [List.mem_reverse]
  exact mem_dropWhile_of_mem _ _ _ (List.mem_reverse.2 h1) h2

lemma pyStrip_ne_empty (s : String) (a : Char) (h1 : a ∈ s.data)
    (h2 : isPySpace a = false) : pyStrip s ≠ "" := by
  intro hcontra
  have hnil : stripL s.data = [] := congrArg String.data hcontra
  have hm := mem_stripL a s.data h1 h2
  rw [hnil] at hm
  simp at hm

lemma mem_joinNL (t : String) (segs : List String) (c : Char)
    (h1 : t ∈ segs) (h2 : c ∈ t.data) : c ∈ (joinNL segs).data := by
  induction segs with
  | nil => simp at h1
  | cons s rest ih =>
    cases rest with
    | nil =>
      have hts : t = s := by simpa using h1
      subst hts
      simpa [joinNL] using h2
    | cons r rs =>
      rw [show joinNL (s :: r :: rs) = (s ++ "\n") ++ joinNL (r :: rs) from rfl]
      rw [String.data_append, String.data_append]
      rcases List.mem_cons.1 h1 with rfl | h
      · exact List.mem_append.2 (Or.inl (List.mem_append.2 (Or.inl h2)))
      · exact List.mem_append.2 (Or.inr (ih h))

lemma mem_pageSegments (t : String) (pages : List (Option String))
    (hp : some t ∈ pages) (ht : t ≠ "") : t ∈ pageSegments pages := by
  unfold pageSegments
  rw [List.mem_filter]
  exact ⟨List.mem_filterMap.2 ⟨some t, hp, rfl⟩, by simpa using ht⟩

lemma pageSegments_append (xs ys : List (Option String)) :
    pageSegments (xs ++ ys) = pageSegments xs ++ pageSegments ys := by
  simp [pageSegments, List.filterMap_append, List.filter_append]

lemma pageSegments_eq_nil (pages : List (Option String))
    (h : ∀ p ∈ pages, p.getD "" = "") : pageSegments pages = [] := by
  induction pages with
  | nil => rfl
  | cons p rest ih =>
    have hrest : ∀ q ∈ rest, q.getD "" = "" := fun q hq => h q (List.mem_cons_of_mem _ hq)
    cases p with
    | none => simpa [pageSegments] using ih hrest
    | some t =>
      have hts : t = "" := h (some t) (List.mem_cons_self _ _)
      subst hts
      simpa [pageSegments] using ih hrest

/-! ### Claim theorems -/

/-- Claim C1, counterexample: for the non-empty extracted text
"short text" (10 characters, below the 50-character threshold), `main`
shows the low-confidence warning but does NOT invoke `get_legal_summary`:
the warning branch is an `elif` whose body contains no summarization call,
so the provider call is skipped — refuting the claim that summarization is
still attempted. -/
theorem short_text_skips_summary_cex :
    (analyze_document (fun _ => Except.ok "SUM") "short text" "gpt-3.5-turbo").shownShortWarning = true ∧
    (analyze_document (fun _ => Except.ok "SUM") "short text" "gpt-3.5-turbo").summaryCalled = false :=
  ⟨rfl, rfl⟩

/-- Claim C1, amended: for every non-empty extracted text shorter than 50
characters, the caller surfaces the low-confidence warning and skips the
summarization flow (no provider call is issued); it does not hard-fail
(the empty-text error is not shown). -/
theorem short_text_warns_and_skips (client : Client)
    (document_text model_choice : String)
    (h1 : document_text ≠ "") (h2 : document_text.length < 50) :
    (analyze_document client document_text model_choice).shownShortWarning = true ∧
    (analyze_document client document_text model_choice).summaryCalled = false ∧
    (analyze_document client document_text model_choice).shownEmptyError = false := by
  simp [analyze_document, h1, h2]

/-- Witness for the amended C1 at the concrete input "short text". -/
theorem short_text_warns_and_skips_witness :
    (analyze_document (fun _ => Except.ok "SUM") "short text" "gpt-4").shownShortWarning = true ∧
    (analyze_document (fun _ => Except.ok "SUM") "short text" "gpt-4").summaryCalled = false ∧
    (analyze_document (fun _ => Except.ok "SUM") "short text" "gpt-4").shownEmptyError = false :=
  short_text_warns_and_skips (fun _ => Except.ok "SUM") "short text" "gpt-4"
    (by decide) (by decide)

/-- Claim C2: for every successfully opened document with at least one
page whose extracted text contains a non-whitespace character, the
extraction result is non-empty and equals the truthy page segments, in
original page order, joined by exactly one newline and stripped of
leading/trailing whitespace. -/
theorem extraction_order_and_separator (pages : List (Option String))
    (h : ∃ t, some t ∈ pages ∧ ∃ c ∈ t.data, isPySpace c = false) :
    (extract_text_from_pdf (some pages)).result ≠ "" ∧
    (extract_text_from_pdf (some pages)).result = pyStrip (joinNL (pageSegments pages)) := by
  obtain ⟨t, hp, c, hc, hcs⟩ := h
  have ht : t ≠ "" := by
    intro he
    subst he
    simp at hc
  have hmem := mem_pageSegments t pages hp ht
  have hcj := mem_joinNL t (pageSegments pages) c hmem hc
  refine ⟨?_, extract_result_eq pages⟩
  rw [extract_result_eq]
  exact pyStrip_ne_empty _ c hcj hcs

/-- Witness for C2 on a concrete two-text-page document. -/
theorem extraction_order_and_separator_witness :
    (extract_text_from_pdf (some [some "Hello", none, some "", some "World"])).result ≠ "" ∧
    (extract_text_from_pdf (some [some "Hello", none, some "", some "World"])).result
      = pyStrip (joinNL (pageSegments [some "Hello", none, some "", some "World"])) :=
  extraction_order_and_separator [some "Hello", none, some "", some "World"]
    ⟨"Hello", by decide, 'H', by decide, by decide⟩

/-- Claim C3, divergence evidence: when opening/parsing the payload
raises (modelled by `none`), the handler returns `""` without reaching
the `os.unlink` call, so the temporary copy is NOT deleted
(`tempDeleted = false`); on the success path it is deleted.  This
contradicts the claim that the temporary file is removed on every
failure path. -/
theorem temp_file_leak_on_open_failure :
    (extract_text_from_pdf none).tempDeleted = false ∧
    (extract_text_from_pdf none).result = "" ∧
    (extract_text_from_pdf (some [some "text"])).tempDeleted = true :=
  ⟨rfl, rfl, rfl⟩

/-- Claim C4, counterexample: a whitespace-only question (" ") is truthy
in Python, so `st.button(...) and question` passes and the Q&A flow IS
invoked — refuting the claim that whitespace-only questions issue no
provider call. -/
theorem whitespace_question_invokes_qa_cex :
    qa_flow_invoked true " " = true :=
  rfl

/-- Claim C4, amended: the Q&A flow is invoked exactly when the button
fires and the question string is non-empty; an empty question is a no-op,
but a whitespace-only question counts as non-empty and does invoke the
flow. -/
theorem qa_invoked_iff_nonempty (button_clicked : Bool) (question : String) :
    qa_flow_invoked button_clicked question = true ↔
      (button_clicked = true ∧ question ≠ "") := by
  simp [qa_flow_invoked]

/-- Claim C5: for every document text, question and model choice, each
request carries exactly one system message and one user message, in that
order, and the generation parameters are fixed per flow (1500 tokens and
temperature 0.3 for summarization, 1000 tokens and temperature 0.3 for
Q&A), independent of the model. -/
theorem fixed_messages_and_params (document_text question model : String) :
    (summary_request document_text model).messages.map Message.role = ["system", "user"] ∧
    (summary_request document_text model).max_tokens = 1500 ∧
    (summary_request document_text model).temperature = 3/10 ∧
    (answer_request question model).messages.map Message.role = ["system", "user"] ∧
    (answer_request question model).max_tokens = 1000 ∧
    (answer_request question model).temperature = 3/10 :=
  ⟨rfl, rfl, rfl, rfl, rfl, rfl⟩

/-- Claim C6: whenever the provider call raises, `get_legal_summary`
returns "Error generating summary: " followed by the error detail and
`get_legal_answer` returns "Error generating answer: " followed by the
error detail; both flows are total functions of the client outcome, so no
exception propagates. -/
theorem provider_failure_in_band (cs ca : Client)
    (document_text question model e f : String)
    (hs : cs (summary_request document_text model) = Except.error e)
    (ha : ca (answer_request question model) = Except.error f) :
    get_legal_summary cs document_text model = "Error generating summary: " ++ e ∧
    get_legal_answer ca question model = "Error generating answer: " ++ f := by
  unfold get_legal_summary get_legal_answer
  rw [hs, ha]
  exact ⟨rfl, rfl⟩

/-- Witness for C6 with a client that always raises "connection error". -/
theorem provider_failure_in_band_witness :
    get_legal_summary (fun _ => Except.error "connection error") "doc" "gpt-3.5-turbo"
      = "Error generating summary: " ++ "connection error" ∧
    get_legal_answer (fun _ => Except.error "connection error") "q" "gpt-3.5-turbo"
      = "Error generating answer: " ++ "connection error" :=
  provider_failure_in_band (fun _ => Except.error "connection error")
    (fun _ => Except.error "connection error") "doc" "q" "gpt-3.5-turbo"
    "connection error" "connection error" rfl rfl

/-- Claim C7: when opening the payload raises (empty bytes, non-PDF,
corrupt or password-protected input) the function returns the empty
string, shows the caller-visible error, and never propagates the
exception; and for any document all of whose pages yield no text
(`None` or `""`), the result is likewise the empty string. -/
theorem extraction_degrades_to_empty (pages : List (Option String))
    (h : ∀ p ∈ pages, p.getD "" = "") :
    (extract_text_from_pdf none).result = "" ∧
    (extract_text_from_pdf none).errorShown = true ∧
    (extract_text_from_pdf (some pages)).result = "" := by
  refine ⟨rfl, rfl, ?_⟩
  rw [extract_result_eq, pageSegments_eq_nil pages h]
  rfl

/-- Witness for C7 on a zero-text document (one `None` page, one empty
page). -/
theorem extraction_degrades_to_empty_witness :
    (extract_text_from_pdf none).result = "" ∧
    (extract_text_from_pdf none).errorShown = true ∧
    (extract_text_from_pdf (some [none, some ""])).result = "" :=
  extraction_degrades_to_empty [none, some ""] (by decide)

/-- Claim C8: on a successful provider call, `get_legal_summary` returns
the completion text unmodified, and the user message of the request it
issued embeds the full document text verbatim (as a contiguous
substring). -/
theorem summary_success_verbatim (client : Client) (document_text model c : String)
    (h : client (summary_request document_text model) = Except.ok c) :
    get_legal_summary client document_text model = c ∧
    ∃ m ∈ (summary_request document_text model).messages, m.role = "user" ∧
      ∃ pre post, m.content = pre ++ document_text ++ post := by
  constructor
  · unfold get_legal_summary
    rw [h]
  · refine ⟨Message.mk "user"
        ("Please provide a plain-English summary of this legal document:\n\n" ++ document_text),
      ?_, rfl,
      "Please provide a plain-English summary of this legal document:\n\n", "",
      (String.append_empty _).symm⟩
    simp [summary_request]

/-- Witness for C8 at the spec scenario: document text
"This Agreement shall terminate on 30 days' notice." and a mocked
provider returning "Summary: ..." verbatim. -/
theorem summary_success_verbatim_witness :
    get_legal_summary (fun _ => Except.ok "Summary: ...")
      "This Agreement shall terminate on 30 days\x27 notice." "gpt-3.5-turbo"
      = "Summary: ..." ∧
    ∃ m ∈ (summary_request "This Agreement shall terminate on 30 days\x27 notice."
        "gpt-3.5-turbo").messages, m.role = "user" ∧
      ∃ pre post, m.content = pre ++ "This Agreement shall terminate on 30 days\x27 notice." ++ post :=
  summary_success_verbatim (fun _ => Except.ok "Summary: ...")
    "This Agreement shall terminate on 30 days\x27 notice." "gpt-3.5-turbo"
    "Summary: ..." rfl

/-- Claim C9: the credential is resolved from the environment variable
first; only when that is absent/empty is the secret store consulted; when
neither yields a credential, initialization halts (`st.stop()`) and
`main` never reaches its flow-rendering body. -/
theorem credential_resolution (env : Option String)
    (secrets : List (String × String)) :
    (∀ k, env = some k → k ≠ "" → init_openai_client env secrets = InitResult.client k) ∧
    ((env = none ∨ env = some "") →
      (∀ k, secrets.lookup "openai_api_key" = some k →
        init_openai_client env secrets = InitResult.client k) ∧
      (secrets.lookup "openai_api_key" = none →
        init_openai_client env secrets = InitResult.halted ∧
        main_renders_flows env secrets = false)) := by
  constructor
  · intro k hk hne
    subst hk
    simp [init_openai_client, hne]
  · intro henv
    have hgd : env.getD "" = "" := by
      rcases henv with rfl | rfl <;> rfl
    constructor
    · intro k hk
      simp [init_openai_client, hgd, hk]
    · intro hk
      have hinit : init_openai_client env secrets = InitResult.halted := by
        simp [init_openai_client, hgd, hk]
      exact ⟨hinit, by simp [main_renders_flows, hinit]⟩

/-- Witness for C9: environment credential wins; secrets used when the
environment is unset; both missing halts before any flow renders. -/
theorem credential_resolution_witness :
    init_openai_client (some "sk-env") [("openai_api_key", "sk-secrets")]
      = InitResult.client "sk-env" ∧
    init_openai_client none [("openai_api_key", "sk-secrets")]
      = InitResult.client "sk-secrets" ∧
    init_openai_client none [] = InitResult.halted ∧
    main_renders_flows none [] = false :=
  ⟨(credential_resolution (some "sk-env") [("openai_api_key", "sk-secrets")]).1
      "sk-env" rfl (by decide),
   ((credential_resolution none [("openai_api_key", "sk-secrets")]).2
      (Or.inl rfl)).1 "sk-secrets" rfl,
   ((credential_resolution none []).2 (Or.inl rfl)).2 rfl⟩

/-- Claim C10: a page whose extraction yields no text (`None` or `""`)
contributes neither a segment nor a newline: deleting it anywhere leaves
the result unchanged, and the result is always the text-bearing segments
joined by single newlines (then stripped), with no blank line marking the
skipped page. -/
theorem textless_pages_contribute_nothing (pre post : List (Option String))
    (p : Option String) (hp : p = none ∨ p = some "") :
    (extract_text_from_pdf (some (pre ++ p :: post))).result
      = (extract_text_from_pdf (some (pre ++ post))).result ∧
    (extract_text_from_pdf (some (pre ++ post))).result
      = pyStrip (joinNL (pageSegments (pre ++ post))) := by
  have hseg : pageSegments (pre ++ p :: post) = pageSegments (pre ++ post) := by
    rcases hp with rfl | rfl <;>
      simp [pageSegments_append, pageSegments, List.filterMap_cons, List.filter_cons]
  exact ⟨by rw [extract_result_eq, extract_result_eq, hseg], extract_result_eq _⟩

/-- Witness for C10: a `None` page between two text pages produces
"A\nB", the same as without it. -/
theorem textless_pages_contribute_nothing_witness :
    (extract_text_from_pdf (some ([some "A"] ++ none :: [some "B"]))).result
      = (extract_text_from_pdf (some ([some "A"] ++ [some "B"]))).result ∧
    (extract_text_from_pdf (some ([some "A"] ++ [some "B"]))).result
      = pyStrip (joinNL (pageSegments ([some "A"] ++ [some "B"]))) :=
  textless_pages_contribute_nothing [some "A"] [some "B"] none (Or.inl rfl)

end LegalAssistant
